import Mathlib

/-!
Shallow embedding of the Newton multi-agent research pipeline
(`backend/app/agents/*.py`, `backend/app/services/research_lab.py`),
with proofs checking the natural-language specification's claims.

Conventions used throughout:
* Python floats are modelled as rationals (`ℚ`); all arithmetic the embedded
  code performs on them is exact on the values that occur.
* Python dicts are modelled either as Lean structures (when the schema is
  fixed) or as insertion-ordered association lists.
* Fallible Python code (uncaught exceptions) is modelled with
  `Except String α`, the error string naming the Python exception class.
* The text-generation collaborator (`llm_client.generate`) and the JSON
  decoder (`json.loads`) are external to the embedded agents; they are passed
  in as parameters (`LLMGen`, `JLoads`).  Prompt strings are abstracted to a
  `Prompt` datatype carrying exactly the data the Python code interpolates
  into the prompt text.
-/

namespace Newton

/-- JSON values as produced by `json.loads`.  Object fields keep insertion
order, as Python dicts do. -/
inductive Json : Type where
  | obj (kv : List (String × Json))
  | arr (elems : List Json)
  | str (s : String)
  | num (q : ℚ)
  | jbool (b : Bool)
  | null
deriving Inhabited

/-- Python `d[k] = v` on a dict: replace the value in place if the key is
present (keeping its position), otherwise append the new binding. -/
def setKey (kv : List (String × Json)) (k : String) (v : Json) :
    List (String × Json) :=
  if (kv.lookup k).isSome then
    kv.map (fun p => if p.1 == k then (p.1, v) else p)
  else kv ++ [(k, v)]

/-- Same update operation for float-valued dicts (e.g. critique weights). -/
def setVal (kv : List (String × ℚ)) (k : String) (v : ℚ) :
    List (String × ℚ) :=
  if (kv.lookup k).isSome then
    kv.map (fun p => if p.1 == k then (p.1, v) else p)
  else kv ++ [(k, v)]

/-- Coercion of a JSON value to a Python number inside arithmetic
(`int`/`float`/`bool` work, everything else raises `TypeError`). -/
def jNum? : Json → Except String ℚ
  | .num q => .ok q
  | .jbool b => .ok (if b then 1 else 0)
  | _ => .error "TypeError"

/-- Python truthiness of a JSON value. -/
def jTruthy : Json → Bool
  | .obj kv => !kv.isEmpty
  | .arr l => !l.isEmpty
  | .str s => !s.isEmpty
  | .num q => q != 0
  | .jbool b => b
  | .null => false

/-- Truthiness of `d.get(k)` (missing key gives `None`, which is falsy). -/
def jTruthyOpt (j : Option Json) : Bool := (j.map jTruthy).getD false

/-- Conversion of an `Option` to JSON, with Python `None` becoming `null`. -/
def optNumJson (q : Option ℚ) : Json := (q.map Json.num).getD .null

/-- Python `x or y` on two optional numbers (`None` and `0` are falsy). -/
def pyOrNum (a b : Option ℚ) : Json :=
  match a with
  | some q => if q = 0 then optNumJson b else .num q
  | none => optNumJson b

/-- Boolean list-of-chars test: does the second list start the first? -/
def isPrefOf : List Char → List Char → Bool
  | [], _ => true
  | _ :: _, [] => false
  | a :: as, b :: bs => a == b && isPrefOf as bs

/-- Python's substring test `pat in l` on char lists. -/
def hasSubList : List Char → List Char → Bool
  | [], pat => pat.isEmpty
  | l@(_ :: t), pat => isPrefOf pat l || hasSubList t pat

/-- Python `pat in s` substring containment on strings. -/
def strHas (s pat : String) : Bool := hasSubList s.data pat.data

/-- Python `s.lower()` (the embedded strings are ASCII). -/
def lowerStr (s : String) : String := ⟨s.data.map Char.toLower⟩

/-- Round to the nearest integer, ties to even — the rounding Python's
`round` and `format` perform (exact on the values occurring here). -/
def roundHalfEven (q : ℚ) : ℤ :=
  let f := ⌊q⌋
  let r := q - (f : ℚ)
  if r < 1/2 then f
  else if 1/2 < r then f + 1
  else if f % 2 = 0 then f else f + 1

/-- Format a non-negative rational with exactly one digit after the point —
Python's repr / `:.1f` on the one-decimal values the program produces. -/
def fmt1 (q : ℚ) : String :=
  let n := roundHalfEven (q * 10)
  toString (n / 10) ++ "." ++ toString (n % 10)

/-- Python `:.2f` formatting. -/
def fmt2 (q : ℚ) : String :=
  let n := roundHalfEven (q * 100)
  toString (n / 100) ++ "." ++ toString (n / 10 % 10) ++ toString (n % 10)

/-- Python `min(a, b)` on floats (kernel-reducible, unlike the lattice
`min`). -/
def pymin (a b : ℚ) : ℚ := if a ≤ b then a else b

/-- A single-quote character as a string (used inside Python f-strings). -/
def sq : String := String.singleton (Char.ofNat 39)

def digitVal (c : Char) : ℕ := c.toNat - 48

def digitsVal (cs : List Char) : ℕ := cs.foldl (fun a c => a * 10 + digitVal c) 0

def allDigits (cs : List Char) : Bool := cs.all Char.isDigit

/-- Model of Python `float(s)` on the plain decimal fragment of its grammar
(digit strings with at most one point); other inputs — in particular any
string with a letter in it, like `"garbage"` — fail to parse
(`ValueError`). -/
def parseFloat? (s : String) : Option ℚ :=
  match s.splitOn "." with
  | [i] => if !i.isEmpty && allDigits i.data then some (digitsVal i.data) else none
  | [i, f] =>
    if (!i.isEmpty || !f.isEmpty) && allDigits i.data && allDigits f.data then
      some ((digitsVal i.data : ℚ) + (digitsVal f.data : ℚ) / (10 ^ f.data.length))
    else none
  | _ => none

/-- Python `s.replace("v", "")`. -/
def stripV (s : String) : String := ⟨s.data.filter (fun c => c != 'v')⟩

/-- Event metadata dict; the agents read each key with `.get` and a default,
so every field is optional. -/
structure EventData where
  event_type : Option String
  severity : Option String
  weather : Option String
deriving DecidableEq, Repr

/-- The dict `genome["retrieval_preferences"]`. -/
structure RetrievalPreferences where
  keywords : List String
  venue_weights : List (String × ℚ)
  year_window : Int × Int
deriving DecidableEq, Repr

/-- The dict `genome["critique_focus"]`. -/
structure CritiqueFocus where
  dimensions : List String
  weights : List (String × ℚ)
deriving DecidableEq, Repr

/-- A lab strategy genome (`genome_data`).  `reading_template` holds the
`extract_fields` list; `synthesis_style` the style dict read by the
synthesizer prompt builder. -/
structure Genome where
  retrieval_preferences : RetrievalPreferences
  reading_template : List String
  critique_focus : CritiqueFocus
  synthesis_style : List (String × String)
deriving DecidableEq, Repr

/-- A catalog paper as returned by the retriever's mock corpus (the prose
`abstract` field is carried by the source data but read by no embedded
code, so it is elided). -/
structure Paper where
  title : String
  authors : List String
  venue : String
  year : Int
  method_category : String
  key_results : List (String × ℚ)
  deployment_notes : String
deriving DecidableEq, Repr

/-- A retrieved paper after `retrieve` has attached `relevance_score`. -/
structure ScoredPaper where
  paper : Paper
  relevance_score : ℚ
deriving DecidableEq, Repr

/-- The data a stage interpolates into its prompt text (prompt strings are
abstracted to this data; their surrounding boilerplate carries no
information). -/
inductive Prompt : Type where
  | planning (lab : String) (event_type severity weather : String)
      (labKeywords dims : List String)
  | critiquePaper (lab : String) (title method_category : String)
      (event_type severity : String) (extracted_info : List (String × Json))
      (dims : List String)
  | synthesis (lab : String) (sub_questions : Json)
      (tops : List (String × Json × Json × Json)) (event_type severity : String)
      (audience emphasis : String)

/-- The text-generation collaborator (`llm_client.generate`); it may raise. -/
def LLMGen : Type := Prompt → Except String String

/-- The JSON decoder (`json.loads`); `none` models `json.JSONDecodeError`. -/
def JLoads : Type := String → Option Json

/-- Python `j.get(k, d)`: only dicts have `.get`; anything else raises
`AttributeError`. -/
def jGetD (j : Json) (k : String) (d : Json) : Except String Json :=
  match j with
  | .obj kv => .ok ((kv.lookup k).getD d)
  | _ => .error "AttributeError"

/-- The research plan dict `PlannerAgent.plan` returns. -/
structure Plan where
  lab_name : String
  event_type : Option String
  sub_questions : Json
  search_strategy : Json
  keywords : List String
  priority_dimensions : List String

/-- Python `event_type.replace("_", " ")`. -/
def replUnderscore (s : String) : String :=
  ⟨s.data.map (fun c => if c == '_' then ' ' else c)⟩

/-- Embedding of `PlannerAgent._extract_keywords`. -/
def extractKeywords (g : Genome) (ev : EventData) : List String :=
  let keywords := g.retrieval_preferences.keywords
  let et := ev.event_type.getD ""
  let keywords := if !et.isEmpty then keywords ++ [replUnderscore et] else keywords
  let w := ev.weather.getD ""
  if !w.isEmpty && w != "clear" then keywords ++ [w] else keywords

/-- Embedding of `PlannerAgent._default_plan`: the deterministic fallback plan. -/
def defaultPlan (lab : String) (ev : EventData) : Json :=
  let et := ev.event_type.getD "unknown"
  if lab == "SafetyLab" then
    .obj [("sub_questions", .arr [
        .str ("What are the safety-critical aspects of " ++ et ++ " scenarios?"),
        .str "What robust methods exist for handling this scenario?",
        .str "What are the failure modes and mitigation strategies?"]),
      ("search_strategy", .str "Focus on safety verification and robustness")]
  else
    .obj [("sub_questions", .arr [
        .str ("What are the SOTA methods for " ++ et ++ " scenarios?"),
        .str "How can we optimize performance for this scenario?",
        .str "What are the benchmark results for similar scenarios?"]),
      ("search_strategy", .str "Focus on performance and efficiency")]

/-- Embedding of `PlannerAgent._build_planning_prompt` (abstracted to its data). -/
def planningPrompt (lab : String) (g : Genome) (ev : EventData) : Prompt :=
  .planning lab (ev.event_type.getD "unknown") (ev.severity.getD "medium")
    (ev.weather.getD "clear") g.retrieval_preferences.keywords
    g.critique_focus.dimensions

/-- The result dict `PlannerAgent.plan` builds from the decoded (or
fallback) plan; `.get` on a non-dict raises `AttributeError`. -/
def plannerAssemble (lab : String) (g : Genome) (ev : EventData)
    (plan : Json) : Except String Plan := do
  let sq ← jGetD plan "sub_questions" (.arr [])
  let ss ← jGetD plan "search_strategy" (.str "")
  pure { lab_name := lab, event_type := ev.event_type,
         sub_questions := sq, search_strategy := ss,
         keywords := extractKeywords g ev,
         priority_dimensions := g.critique_focus.dimensions }

/-- Embedding of `PlannerAgent.plan`.  The second component is the list of collaborator
calls the stage made.  Only `json.JSONDecodeError` from `json.loads` is
caught (the `try` block wraps only the decode); an exception from
`generate` itself, or from `.get` on a decoded non-dict, propagates. -/
def plannerPlan (gen : LLMGen) (jloads : JLoads) (lab : String) (g : Genome)
    (ev : EventData) : Except String Plan × List Prompt :=
  let pr := planningPrompt lab g ev
  match gen pr with
  | .error e => (.error e, [pr])
  | .ok response =>
    (plannerAssemble lab g ev (match jloads response with
      | some j => j
      | none => defaultPlan lab ev), [pr])

/-- Python's stable `list.sort(key=..., reverse=True)`: order by the key,
descending, keeping the original order of equal-key elements.  Insertion
sort (which is stable) is the mathematical model. -/
def descBy {α : Type _} (key : α → ℚ) (a b : α) : Prop := key b ≤ key a

instance {α : Type _} (key : α → ℚ) : DecidableRel (descBy key) := fun a b =>
  inferInstanceAs (Decidable (key b ≤ key a))

instance {α : Type _} (key : α → ℚ) : IsTotal α (descBy key) :=
  ⟨fun a b => (le_total (key b) (key a)).imp id id⟩

instance {α : Type _} (key : α → ℚ) : IsTrans α (descBy key) :=
  ⟨fun _ _ _ h1 h2 => le_trans h2 h1⟩

def sortDescBy {α : Type _} (key : α → ℚ) (l : List α) : List α :=
  l.insertionSort (descBy key)

/-- Embedding of `RetrieverAgent._get_safety_papers`: the fixed SafetyLab catalog. -/
def safetyPapers : List Paper := [
  { title := "Safe Reinforcement Learning for Autonomous Driving with Reachability Analysis",
    authors := ["Smith, J.", "Johnson, A."], venue := "ICRA", year := 2023,
    method_category := "safety_verification",
    key_results := [("collision_rate", 0.001), ("safety_violations", 0),
      ("test_scenarios", 10000)],
    deployment_notes := "Requires offline reachability set computation; suitable for structured environments" },
  { title := "Robust Perception Under Adverse Weather Using Multi-Modal Sensor Fusion",
    authors := ["Chen, L.", "Wang, Y."], venue := "CVPR", year := 2023,
    method_category := "robust_perception",
    key_results := [("detection_accuracy_rain", 0.92),
      ("detection_accuracy_fog", 0.88), ("fps", 25)],
    deployment_notes := "Requires calibrated multi-modal sensors; proven in real-world testing" },
  { title := "Uncertainty-Aware Planning for Safety-Critical Autonomous Driving",
    authors := ["Brown, M.", "Davis, K."], venue := "CoRL", year := 2022,
    method_category := "uncertainty_estimation",
    key_results := [("safety_score", 0.95), ("comfort_score", 0.82),
      ("planning_time_ms", 50)],
    deployment_notes := "Suitable for urban environments; requires uncertainty-calibrated perception" }]

/-- Embedding of `RetrieverAgent._get_performance_papers`: the fixed PerformanceLab
catalog. -/
def performancePapers : List Paper := [
  { title := "End-to-End Autonomous Driving with Transformers",
    authors := ["Zhang, X.", "Liu, H."], venue := "NeurIPS", year := 2023,
    method_category := "end_to_end_learning",
    key_results := [("nuscenes_score", 0.68), ("planning_accuracy", 0.91),
      ("fps", 30)],
    deployment_notes := "Requires large-scale training data; excellent generalization" },
  { title := "Real-Time 3D Object Detection with Efficient Neural Architectures",
    authors := ["Kim, S.", "Park, J."], venue := "CVPR", year := 2023,
    method_category := "efficient_perception",
    key_results := [("map_score", 0.72), ("fps", 60), ("latency_ms", 16)],
    deployment_notes := "Optimized for edge deployment; minimal computational overhead" },
  { title := "Model Predictive Control with Learned Dynamics for Autonomous Driving",
    authors := ["Anderson, R.", "Taylor, S."], venue := "ICRA", year := 2022,
    method_category := "model_based_control",
    key_results := [("tracking_error_m", 0.15), ("comfort_score", 0.89),
      ("planning_time_ms", 30)],
    deployment_notes := "Requires vehicle-specific dynamics learning; excellent control performance" }]

def retrieveCatalog (lab : String) : List Paper :=
  if lab == "SafetyLab" then safetyPapers else performancePapers

/-- The catalog filtered to `year_window[0] <= year <= year_window[1]`. -/
def retrieveFiltered (lab : String) (g : Genome) : List Paper :=
  let yw := g.retrieval_preferences.year_window
  (retrieveCatalog lab).filter (fun p => decide (yw.1 ≤ p.year ∧ p.year ≤ yw.2))

/-- Each surviving paper is given
`relevance_score = venue_weights.get(venue, 0.5)`. -/
def retrieveScored (lab : String) (g : Genome) : List ScoredPaper :=
  (retrieveFiltered lab g).map (fun p =>
    { paper := p,
      relevance_score :=
        (g.retrieval_preferences.venue_weights.lookup p.venue).getD (1/2) })

/-- Embedding of `RetrieverAgent.retrieve`: filter by year window, score by venue weight,
stable-sort descending by score, truncate to 10.  The research plan's
`keywords` are read into a local the source never uses, and the stage makes
no collaborator call. -/
def retrieve (_gen : LLMGen) (lab : String) (g : Genome) (_plan : Plan) :
    List ScoredPaper × List Prompt :=
  ((sortDescBy (fun sp => sp.relevance_score) (retrieveScored lab g)).take 10, [])

/-- A paper after `ReaderAgent._extract_fields`. -/
structure ReadPaper where
  title : String
  authors : List String
  venue : String
  year : Int
  method_category : String
  extracted_info : List (String × Json)

/-- Embedding of `ReaderAgent._extract_failure_modes`. -/
def extractFailureModes (text : String) : List String :=
  let kws := ["requires", "limited", "fails", "degrades"]
  let fm := ((text.splitOn ";").filter
    (fun sen => kws.any (fun kw => strHas (lowerStr sen) kw))).map String.trim
  if fm.isEmpty then ["No specific failure modes documented"] else fm

/-- Embedding of `ReaderAgent._extract_limitations`. -/
def extractLimitations (text : String) : List String :=
  let kws := ["requires", "limited", "only suitable", "not suitable"]
  let lim := ((text.splitOn ";").filter
    (fun sen => kws.any (fun kw => strHas (lowerStr sen) kw))).map String.trim
  if lim.isEmpty then ["No specific limitations documented"] else lim

/-- One arm of the field dispatch inside `ReaderAgent._extract_fields`;
unknown field names contribute nothing. -/
def extractOneField (p : Paper) (acc : List (String × Json)) (field : String) :
    List (String × Json) :=
  if field == "method_name" then
    setKey acc "method_name" (.str ((p.title.splitOn ":").headD ""))
  else if field == "safety_guarantees" then
    setKey acc "safety_guarantees" (.obj [
      ("collision_rate", optNumJson (p.key_results.lookup "collision_rate")),
      ("safety_violations", optNumJson (p.key_results.lookup "safety_violations")),
      ("safety_score", optNumJson (p.key_results.lookup "safety_score"))])
  else if field == "failure_modes" then
    setKey acc "failure_modes"
      (.arr ((extractFailureModes p.deployment_notes).map .str))
  else if field == "robustness_metrics" then
    setKey acc "robustness_metrics" (.obj [
      ("detection_accuracy_rain", optNumJson (p.key_results.lookup "detection_accuracy_rain")),
      ("detection_accuracy_fog", optNumJson (p.key_results.lookup "detection_accuracy_fog")),
      ("worst_case_performance", optNumJson (p.key_results.lookup "worst_case_performance"))])
  else if field == "performance_metrics" then
    setKey acc "performance_metrics" (.obj [
      ("accuracy", pyOrNum (p.key_results.lookup "nuscenes_score")
        (p.key_results.lookup "map_score")),
      ("fps", optNumJson (p.key_results.lookup "fps")),
      ("latency_ms", optNumJson (p.key_results.lookup "latency_ms")),
      ("planning_time_ms", optNumJson (p.key_results.lookup "planning_time_ms"))])
  else if field == "computational_cost" then
    setKey acc "computational_cost" (.obj [
      ("fps", optNumJson (p.key_results.lookup "fps")),
      ("latency_ms", optNumJson (p.key_results.lookup "latency_ms"))])
  else if field == "benchmark_results" then
    setKey acc "benchmark_results"
      (.obj (p.key_results.map (fun kv => (kv.1, Json.num kv.2))))
  else if field == "deployment_notes" then
    setKey acc "deployment_notes" (.str p.deployment_notes)
  else if field == "limitations" then
    setKey acc "limitations"
      (.arr ((extractLimitations p.deployment_notes).map .str))
  else if field == "scalability" then
    setKey acc "scalability" (.str
      (if strHas (lowerStr p.deployment_notes) "scalable" then "scalable"
       else "limited"))
  else acc

/-- Embedding of `ReaderAgent._extract_fields` on one retrieved paper. -/
def extractFields (fields : List String) (sp : ScoredPaper) : ReadPaper :=
  let p := sp.paper
  { title := p.title, authors := p.authors, venue := p.venue, year := p.year,
    method_category := p.method_category,
    extracted_info := fields.foldl (extractOneField p) [] }

/-- Embedding of `ReaderAgent.read`: pure field extraction; no collaborator call. -/
def readerRead (_gen : LLMGen) (g : Genome) (papers : List ScoredPaper) :
    List ReadPaper × List Prompt :=
  (papers.map (extractFields g.reading_template), [])

/-- Embedding of `CriticAgent._build_critique_prompt` (abstracted to its data). -/
def critiquePrompt (lab : String) (paper : ReadPaper) (dims : List String)
    (ev : EventData) : Prompt :=
  .critiquePaper lab paper.title paper.method_category
    (ev.event_type.getD "") (ev.severity.getD "") paper.extracted_info dims

/-- The score map built by `CriticAgent._default_critique`.  Like the
Python, it can itself raise: `.get` on a non-dict metrics entry is an
`AttributeError`, arithmetic on a non-numeric `fps` a `TypeError`. -/
def defaultCritiqueScores (paper : ReadPaper) (dims : List String) :
    Except String (List (String × Json)) :=
  dims.foldlM (fun scores dim => do
    if dim == "robustness" then
      let metrics := (paper.extracted_info.lookup "robustness_metrics").getD (.obj [])
      let v ← jGetD metrics "detection_accuracy_rain" .null
      if jTruthy v then pure (setKey scores dim v)
      else pure (setKey scores dim (.num 0.7))
    else if dim == "accuracy" then
      let metrics := (paper.extracted_info.lookup "performance_metrics").getD (.obj [])
      let v ← jGetD metrics "accuracy" .null
      if jTruthy v then pure (setKey scores dim v)
      else pure (setKey scores dim (.num 0.75))
    else if dim == "speed" then
      let metrics := (paper.extracted_info.lookup "performance_metrics").getD (.obj [])
      let fps ← jGetD metrics "fps" (.num 30)
      let q ← jNum? fps
      pure (setKey scores dim (.num (pymin (q / 60) 1)))
    else if dim == "computational_efficiency" then
      let metrics := (paper.extracted_info.lookup "computational_cost").getD (.obj [])
      let fps ← jGetD metrics "fps" (.num 30)
      let q ← jNum? fps
      pure (setKey scores dim (.num (pymin (q / 60) 1)))
    else pure (setKey scores dim (.num 0.75))) []

/-- Embedding of `CriticAgent._default_critique` — the deterministic fallback critique. -/
def defaultCritique (paper : ReadPaper) (dims : List String) :
    Except String Json := do
  let scores ← defaultCritiqueScores paper dims
  pure (.obj [("scores", .obj scores),
    ("strengths", .arr [.str "Well-documented methodology",
      .str "Clear experimental results"]),
    ("weaknesses", .arr [.str "Limited real-world validation"])])

/-- Lines 67–82 of `CriticAgent._critique_paper`, once the critique JSON is
in hand: read `scores` (default `{}`), sum `scores.get(d, 0.5) *
weights.get(d, 1.0)` over the declared dimensions, divide by the weight sum
when it is positive (0.5 otherwise), and store the result under
`"overall_score"`. -/
def critiquePaperCore (critique : Json) (dims : List String)
    (weights : List (String × ℚ)) : Except String (List (String × Json)) :=
  match critique with
  | .obj kv =>
    match (kv.lookup "scores").getD (.obj []) with
    | .obj sv => do
      let terms ← dims.mapM (fun dim => do
        let s ← jNum? ((sv.lookup dim).getD (.num 0.5))
        pure (s * ((weights.lookup dim).getD 1)))
      let weight_sum := (dims.map (fun dim => (weights.lookup dim).getD 1)).sum
      let overall_score :=
        if weight_sum > 0 then terms.sum / weight_sum else (0.5 : ℚ)
      pure (setKey kv "overall_score" (.num overall_score))
    | _ => .error "AttributeError"
  | _ => .error "AttributeError"

/-- A paper carrying its critique (`paper["critique"] = critique_result`). -/
structure CritiquedPaper where
  paper : ReadPaper
  critique : List (String × Json)

/-- Embedding of `CriticAgent._critique_paper` for one paper. -/
def criticOnePaper (gen : LLMGen) (jloads : JLoads) (lab : String)
    (paper : ReadPaper) (dims : List String) (weights : List (String × ℚ))
    (ev : EventData) : Except String CritiquedPaper :=
  match gen (critiquePrompt lab paper dims ev) with
  | .error e => .error e
  | .ok response => do
    let critique ← match jloads response with
      | some j => pure j
      | none => defaultCritique paper dims
    let kv ← critiquePaperCore critique dims weights
    pure { paper := paper, critique := kv }

/-- Sort key `x["critique"]["overall_score"]` (always set, and numeric, by
`_critique_paper`). -/
def overallKey (c : CritiquedPaper) : ℚ :=
  match c.critique.lookup "overall_score" with
  | some (.num q) => q
  | _ => 0

/-- The critique loop over the papers, recording one collaborator call per
paper; an exception aborts the loop and propagates. -/
def criticLoop (gen : LLMGen) (jloads : JLoads) (lab : String)
    (dims : List String) (weights : List (String × ℚ)) (ev : EventData) :
    List ReadPaper → List CritiquedPaper → List Prompt →
      Except String (List CritiquedPaper) × List Prompt
  | [], acc, trace => (.ok acc, trace)
  | p :: rest, acc, trace =>
    let pr := critiquePrompt lab p dims ev
    match criticOnePaper gen jloads lab p dims weights ev with
    | .error e => (.error e, trace ++ [pr])
    | .ok cp =>
      criticLoop gen jloads lab dims weights ev rest (acc ++ [cp]) (trace ++ [pr])

/-- Embedding of `CriticAgent.critique`: critique every paper, then stable-sort
descending by overall score. -/
def criticCritique (gen : LLMGen) (jloads : JLoads) (lab : String) (g : Genome)
    (papers : List ReadPaper) (ev : EventData) :
    Except String (List CritiquedPaper) × List Prompt :=
  let dims := g.critique_focus.dimensions
  let weights := g.critique_focus.weights
  match criticLoop gen jloads lab dims weights ev papers [] [] with
  | (.ok cps, trace) => (.ok (sortDescBy overallKey cps), trace)
  | (.error e, trace) => (.error e, trace)

/-- Python `d[k]` on a dict (raises `KeyError` when the key is absent). -/
def jIndex (kv : List (String × Json)) (k : String) : Except String Json :=
  match kv.lookup k with
  | some v => .ok v
  | none => .error "KeyError"

/-- Embedding of `SynthesizerAgent._build_synthesis_prompt` (abstracted to its data);
building the top-paper summaries indexes `paper["critique"]["overall_score"]`
and so can raise. -/
def synthesisPrompt (lab : String) (g : Genome) (plan : Plan)
    (papers : List CritiquedPaper) (ev : EventData) : Except String Prompt := do
  let audience := (g.synthesis_style.lookup "audience").getD "engineers"
  let emphasis := (g.synthesis_style.lookup "emphasis").getD "balanced"
  let tops ← (papers.take 5).mapM (fun p => do
    let score ← jIndex p.critique "overall_score"
    pure (p.paper.title, score, (p.critique.lookup "strengths").getD (.arr []),
      (p.critique.lookup "weaknesses").getD (.arr [])))
  pure (.synthesis lab plan.sub_questions tops (ev.event_type.getD "")
    (ev.severity.getD "") audience emphasis)

/-- Embedding of `SynthesizerAgent._default_synthesis` — the deterministic fallback
synthesis (the Python builds `key_methods` and the deployment
recommendations in one pass over the top three papers; the map and the
filtered map below are that same pass). -/
def defaultSynthesis (lab : String) (papers : List CritiquedPaper)
    (ev : EventData) : Json :=
  let top := papers.take 3
  let key_methods : List Json := top.map (fun cp =>
    (cp.paper.extracted_info.lookup "method_name").getD (.str cp.paper.title))
  let deployment_recs : List Json := (top.map (fun cp =>
    (cp.paper.extracted_info.lookup "deployment_notes").getD (.str ""))).filter
      jTruthy
  let et := ev.event_type.getD "this scenario"
  if lab == "SafetyLab" then
    .obj [("summary", .str ("For " ++ et ++
        ", prioritize methods with strong safety guarantees and robustness.")),
      ("key_methods", .arr key_methods),
      ("deployment_recommendations", .arr (if deployment_recs.isEmpty then
        [.str "Conduct thorough testing before deployment"] else deployment_recs)),
      ("trade_offs", .obj [
        ("safety_vs_performance", .str "Higher safety guarantees may reduce performance"),
        ("complexity_vs_reliability", .str "More complex verification increases reliability but adds overhead")]),
      ("confidence_level", .str "medium")]
  else
    .obj [("summary", .str ("For " ++ et ++
        ", prioritize high-performance methods with real-time capability.")),
      ("key_methods", .arr key_methods),
      ("deployment_recommendations", .arr (if deployment_recs.isEmpty then
        [.str "Conduct thorough testing before deployment"] else deployment_recs)),
      ("trade_offs", .obj [
        ("performance_vs_safety", .str "Higher performance may sacrifice some safety guarantees"),
        ("accuracy_vs_speed", .str "Faster inference may reduce accuracy slightly")]),
      ("confidence_level", .str "medium")]

/-- The metadata assignments at the end of `SynthesizerAgent.synthesize`:
they require a dict (`TypeError` otherwise) and index
`paper["critique"]["overall_score"]` (`KeyError` when absent). -/
def synthAttachMeta (lab : String) (papers : List CritiquedPaper)
    (ev : EventData) (synthesis : Json) : Except String Json :=
  match synthesis with
  | .obj kv =>
    let kv := setKey kv "lab_name" (.str lab)
    let kv := setKey kv "event_type" ((ev.event_type.map Json.str).getD .null)
    let kv := setKey kv "num_papers_analyzed" (.num (papers.length : ℚ))
    match (papers.take 3).mapM (fun p => do
        let sc ← jIndex p.critique "overall_score"
        pure (Json.obj [("title", .str p.paper.title), ("score", sc),
          ("method_category", .str p.paper.method_category)])) with
    | .ok tops => .ok (.obj (setKey kv "top_papers" (.arr tops)))
    | .error e => .error e
  | _ => .error "TypeError"

/-- Embedding of `SynthesizerAgent.synthesize`: one collaborator call; only a JSON decode
failure falls back to the default synthesis. -/
def synthesize (gen : LLMGen) (jloads : JLoads) (lab : String) (g : Genome)
    (plan : Plan) (papers : List CritiquedPaper) (ev : EventData) :
    Except String Json × List Prompt :=
  match synthesisPrompt lab g plan papers ev with
  | .error e => (.error e, [])
  | .ok pr =>
    match gen pr with
    | .error e => (.error e, [pr])
    | .ok response =>
      (synthAttachMeta lab papers ev (match jloads response with
        | some j => j
        | none => defaultSynthesis lab papers ev), [pr])

/-- The dict `judge_decision["recommendations_for_improvement"]`. -/
structure Recommendations where
  SafetyLab : List String
  PerformanceLab : List String
deriving DecidableEq, Repr

/-- The decision dict `JudgeAgent._default_judgment` returns. -/
structure Judgment where
  winner : String
  safety_lab_score : ℚ
  performance_lab_score : ℚ
  reasoning : String
  safety_lab_strengths : List String
  safety_lab_weaknesses : List String
  performance_lab_strengths : List String
  performance_lab_weaknesses : List String
  recommendations_for_improvement : Recommendations
deriving DecidableEq, Repr

/-- Embedding of `JudgeAgent._default_judgment`: fixed scoring-rubric increments chosen
by the event severity, capped at 1.0, with a 0.05 tie band. -/
def defaultJudgment (ev : EventData) : Judgment :=
  let severity := ev.severity.getD "medium"
  let event_type := ev.event_type.getD "unknown"
  let relevance : ℚ × ℚ :=
    if severity == "high" then (0.28, 0.22)
    else if severity == "medium" then (0.25, 0.25)
    else (0.22, 0.28)
  let safety_score : ℚ := relevance.1 + 0.23 + 0.12 + 0.13 + 0.08
  let performance_score : ℚ := relevance.2 + 0.15 + 0.18 + 0.14 + 0.08
  let safety_score := pymin safety_score 1
  let performance_score := pymin performance_score 1
  let score_diff := |safety_score - performance_score|
  let winner :=
    if score_diff < 0.05 then "Tie"
    else if safety_score > performance_score then "SafetyLab"
    else "PerformanceLab"
  { winner := winner,
    safety_lab_score := safety_score,
    performance_lab_score := performance_score,
    reasoning := "For " ++ event_type ++ " event with " ++ severity
      ++ " severity:\n\nSafetyLab scored " ++ fmt1 (safety_score * 100)
      ++ "% with strong safety analysis and risk assessment.\nPerformanceLab scored "
      ++ fmt1 (performance_score * 100)
      ++ "% with efficient methods and optimization focus.\n\nWinner: " ++ winner
      ++ " provided the most appropriate balance for this scenario.",
    safety_lab_strengths := [
      "Comprehensive collision avoidance strategies",
      "Strong risk assessment and failure mode analysis",
      "Robust safety guarantees for edge cases"],
    safety_lab_weaknesses := [
      "May prioritize safety over computational efficiency",
      "Could benefit from more performance benchmarks"],
    performance_lab_strengths := [
      "Highly optimized algorithms with fast inference",
      "Strong benchmark performance on standard datasets",
      "Efficient resource utilization"],
    performance_lab_weaknesses := [
      "Less emphasis on rare safety-critical scenarios",
      "Could strengthen failure mode coverage"],
    recommendations_for_improvement := {
      SafetyLab := [
        "Incorporate performance metrics in safety analysis",
        "Balance safety guarantees with computational constraints",
        "Include real-time processing considerations"],
      PerformanceLab := [
        "Strengthen safety analysis for edge cases",
        "Add failure mode and risk assessment",
        "Consider safety-performance trade-offs explicitly"] } }

/-- Embedding of `JudgeAgent.judge`: a judgment prompt is built from both lab outputs
and then discarded; the decision comes from `_default_judgment`, which
reads only the event's severity and type. -/
def judge (_safety_output _performance_output : Json) (ev : EventData) :
    Judgment :=
  defaultJudgment ev

/-- Python `max(d, key=d.get)`: the first key attaining the maximum value
(in insertion order), paired with that value; `none` on an empty dict. -/
def firstMaxKey : List (String × ℚ) → Option (String × ℚ)
  | [] => none
  | (k, v) :: t =>
    match firstMaxKey t with
    | none => some (k, v)
    | some (k', v') => if v' > v then some (k', v') else some (k, v)

/-- Step 1 of `MetaLearnerAgent._update_losing_genome`: adopt up to two of
the winner's keywords that the loser lacks. -/
def adoptKeywords (genome winning : Genome) : Genome × List String :=
  let winning_keywords := winning.retrieval_preferences.keywords
  let current_keywords := genome.retrieval_preferences.keywords
  let new_keywords := (winning_keywords.filter
    (fun kw => !current_keywords.contains kw)).take 2
  if !new_keywords.isEmpty then
    ({ genome with retrieval_preferences :=
        { genome.retrieval_preferences with
          keywords := current_keywords ++ new_keywords } },
     ["Added keywords: " ++ String.intercalate ", " new_keywords])
  else (genome, [])

/-- Step 2 of `_update_losing_genome`: for every recommendation mentioning
a critique dimension (underscores read as spaces, recommendation
lowercased), raise that dimension's weight by 0.1 capped at 1.0. -/
def adjustWeights (genome : Genome) (recommendations changes : List String) :
    Genome × List String :=
  let keys := genome.critique_focus.weights.map Prod.fst
  let st := recommendations.foldl
    (fun (st : List (String × ℚ) × List String) r =>
      keys.foldl (fun (st : List (String × ℚ) × List String) dimension =>
        if strHas (lowerStr r) (replUnderscore dimension) then
          let old_weight := (st.1.lookup dimension).getD 0
          let nw := pymin (old_weight + 0.1) 1
          (setVal st.1 dimension nw,
           st.2 ++ ["Increased weight for " ++ sq ++ dimension ++ sq ++ " from "
             ++ fmt2 old_weight ++ " to " ++ fmt2 nw])
        else st) st)
    (genome.critique_focus.weights, changes)
  ({ genome with critique_focus :=
      { genome.critique_focus with weights := st.1 } }, st.2)

/-- Step 3 of `_update_losing_genome`: move the year window's lower end up
to 2020 when a recommendation mentions "latest" or "recent". -/
def tightenYearWindow (genome : Genome) (recommendations changes : List String) :
    Genome × List String :=
  if recommendations.any (fun r =>
      strHas (lowerStr r) "latest" || strHas (lowerStr r) "recent") then
    let yw := genome.retrieval_preferences.year_window
    if yw.1 < 2020 then
      ({ genome with retrieval_preferences :=
          { genome.retrieval_preferences with year_window := (2020, yw.2) } },
       changes ++ ["Updated year window to focus on more recent research (2020-2024)"])
    else (genome, changes)
  else (genome, changes)

/-- Embedding of `MetaLearnerAgent._update_losing_genome` (its three commented steps in
sequence). -/
def updateLosingGenome (genome winning : Genome)
    (recommendations : List String) : Genome × List String :=
  let s1 := adoptKeywords genome winning
  let s2 := adjustWeights s1.1 recommendations s1.2
  let s3 := tightenYearWindow s2.1 recommendations s2.2
  (s3.1, if s3.2.isEmpty then ["Minor parameter adjustments"] else s3.2)

/-- Embedding of `MetaLearnerAgent._reinforce_winning_genome`. -/
def reinforceWinningGenome (genome : Genome) : Genome × List String :=
  let weights := genome.critique_focus.weights
  match firstMaxKey weights with
  | some (max_dim, old_weight) =>
    let nw := pymin (old_weight + 0.05) 1
    ({ genome with critique_focus :=
        { genome.critique_focus with weights := setVal weights max_dim nw } },
     ["Reinforced " ++ sq ++ max_dim ++ sq ++ " weight from " ++ fmt2 old_weight
       ++ " to " ++ fmt2 nw])
  | none => (genome, ["Maintained successful strategy"])

/-- Embedding of `MetaLearnerAgent._minor_adjustments` (the tie branch). -/
def minorAdjustments (genome : Genome) : Genome × List String :=
  let vw := genome.retrieval_preferences.venue_weights
  match firstMaxKey vw with
  | some (max_venue, old_weight) =>
    let nw := pymin (old_weight + 0.05) 1
    ({ genome with retrieval_preferences :=
        { genome.retrieval_preferences with
          venue_weights := setVal vw max_venue nw } },
     ["Increased " ++ max_venue ++ " weight from " ++ fmt2 old_weight ++ " to "
       ++ fmt2 nw])
  | none => (genome, ["No significant changes"])

/-- Embedding of `MetaLearnerAgent.learn`.  Note the three `if` blocks run in sequence:
under a Tie a lab whose score is below 0.7 receives the losing-lab update
first, and the tie branch then both adjusts the (already updated) genome
and overwrites the recorded change list. -/
def learn (d : Judgment) (safety_genome performance_genome : Genome)
    (_ev : EventData) : Genome × Genome × String × String :=
  let winner := d.winner
  let safety_score := d.safety_lab_score
  let performance_score := d.performance_lab_score
  let recommendations := d.recommendations_for_improvement
  let su :=
    if winner == "PerformanceLab" || decide (safety_score < 0.7) then
      updateLosingGenome safety_genome performance_genome
        recommendations.SafetyLab
    else if winner == "SafetyLab" then
      reinforceWinningGenome safety_genome
    else (safety_genome, [])
  let pu :=
    if winner == "SafetyLab" || decide (performance_score < 0.7) then
      updateLosingGenome performance_genome safety_genome
        recommendations.PerformanceLab
    else if winner == "PerformanceLab" then
      reinforceWinningGenome performance_genome
    else (performance_genome, [])
  let fin :=
    if winner == "Tie" then
      let ms := minorAdjustments su.1
      let mp := minorAdjustments pu.1
      (ms.1, ms.2, mp.1, mp.2)
    else (su.1, su.2, pu.1, pu.2)
  (fin.1, fin.2.2.1,
   if fin.2.1.isEmpty then "No changes"
   else String.intercalate "; " fin.2.1,
   if fin.2.2.2.isEmpty then "No changes"
   else String.intercalate "; " fin.2.2.2)

/-- The versioned genome row `create_new_genome_version` returns. -/
structure GenomeRecord where
  lab_name : String
  version : String
  genome_data : Genome
  parent_version : Option String
  change_description : String
  is_active : ℕ

/-- Embedding of `MetaLearnerAgent.create_new_genome_version`: parse the current version
string as `v<float>` (after deleting every `"v"`), add 0.1, round to one
decimal, reformat; `None` gives `"v0.1"`, an unparseable string `"v0.2"`. -/
def createNewGenomeVersion (genome_data : Genome) (lab_name : String)
    (current_version : Option String) (change_description : String) :
    String × GenomeRecord :=
  let new_version :=
    match current_version with
    | none => "v0.1"
    | some s =>
      match parseFloat? (stripV s) with
      | some version_num => "v" ++ fmt1 (version_num + 0.1)
      | none => "v0.2"
  (new_version,
   { lab_name := lab_name, version := new_version, genome_data := genome_data,
     parent_version := current_version,
     change_description := change_description, is_active := 1 })

/-! ### Sample inputs used by witnesses and counterexamples -/

def evHighW : EventData :=
  { event_type := some "cut_in", severity := some "high", weather := none }

def evHighW2 : EventData :=
  { event_type := some "cut_in", severity := some "high",
    weather := some "rain" }

def gC3 : Genome :=
  { retrieval_preferences :=
      { keywords := [],
        venue_weights := [("ICRA", 0.9), ("CVPR", 0.85)],
        year_window := (2018, 2024) },
    reading_template := [],
    critique_focus := { dimensions := [], weights := [] },
    synthesis_style := [] }

def plEmpty : Plan :=
  { lab_name := "SafetyLab", event_type := none, sub_questions := .arr [],
    search_strategy := .str "", keywords := [], priority_dimensions := [] }

def genOkW : LLMGen := fun _ => .ok "mock response"

def spC3 : ScoredPaper :=
  { paper := safetyPapers.get ⟨0, by decide⟩, relevance_score := 0.9 }

def sgC7 : Genome :=
  { retrieval_preferences :=
      { keywords := ["a"], venue_weights := [("ICRA", 0.9)],
        year_window := (2018, 2024) },
    reading_template := [],
    critique_focus := { dimensions := ["safety"], weights := [("safety", 0.9)] },
    synthesis_style := [] }

def pgC7 : Genome :=
  { retrieval_preferences :=
      { keywords := ["a", "b", "c"], venue_weights := [],
        year_window := (2020, 2024) },
    reading_template := [],
    critique_focus := { dimensions := [], weights := [] },
    synthesis_style := [] }

def sampleJudgment (w : String) (ss ps : ℚ) : Judgment :=
  { winner := w, safety_lab_score := ss, performance_lab_score := ps,
    reasoning := "", safety_lab_strengths := [], safety_lab_weaknesses := [],
    performance_lab_strengths := [], performance_lab_weaknesses := [],
    recommendations_for_improvement :=
      { SafetyLab := [], PerformanceLab := [] } }

/-- A plain-definition version of `Except.isOk` (kernel-friendly). -/
def isOkE {α : Type _} : Except String α → Bool
  | .ok _ => true
  | .error _ => false

def jlFailW : JLoads := fun _ => none

def rpW : ReadPaper :=
  { title := "T1", authors := [], venue := "V", year := 2020,
    method_category := "m", extracted_info := [] }

def rpW2 : ReadPaper :=
  { title := "T2", authors := [], venue := "V", year := 2021,
    method_category := "m", extracted_info := [] }


/-! ### Facts about the stable descending sort -/

theorem sortDescBy_sorted {α : Type _} (key : α → ℚ) (l : List α) :
    (sortDescBy key l).Sorted (descBy key) :=
  List.sorted_insertionSort (descBy key) l

theorem sortDescBy_perm {α : Type _} (key : α → ℚ) (l : List α) :
    List.Perm (sortDescBy key l) l :=
  List.perm_insertionSort (descBy key) l

theorem filter_orderedInsert {α : Type _} (key : α → ℚ) (q : ℚ) (a : α) :
    ∀ l : List α,
    ((l.orderedInsert (descBy key) a).filter (fun x => decide (key x = q))) =
      if key a = q then a :: l.filter (fun x => decide (key x = q))
      else l.filter (fun x => decide (key x = q))
  | [] => by
    by_cases ha : key a = q <;> simp [List.orderedInsert, ha]
  | b :: t => by
    by_cases hab : descBy key a b
    · by_cases ha : key a = q <;>
        simp [List.orderedInsert, hab, ha, List.filter_cons]
    · have hba : key a < key b := lt_of_not_le hab
      have ih := filter_orderedInsert key q a t
      by_cases ha : key a = q
      · have hb : ¬ key b = q := by
          intro hbq
          rw [ha, hbq] at hba
          exact lt_irrefl q hba
        simp [List.orderedInsert, hab, List.filter_cons, ha, hb, ih]
      · simp [List.orderedInsert, hab, List.filter_cons, ha, ih]

/-- Stability of the embedded sort: the elements whose key is any given
value appear in the sorted list exactly as they did in the input. -/
theorem filter_sortDescBy {α : Type _} (key : α → ℚ) (q : ℚ) :
    ∀ l : List α,
    ((sortDescBy key l).filter (fun x => decide (key x = q))) =
      l.filter (fun x => decide (key x = q))
  | [] => rfl
  | a :: t => by
    have ih := filter_sortDescBy key q t
    rw [show sortDescBy key (a :: t) =
        (sortDescBy key t).orderedInsert (descBy key) a from rfl,
      filter_orderedInsert, ih, List.filter_cons]
    by_cases ha : key a = q <;> simp [ha]

theorem filter_take_isPrefix {α : Type _} (p : α → Bool) (n : ℕ) (l : List α) :
    (l.take n).filter p <+: l.filter p :=
  ⟨(l.drop n).filter p, by rw [← List.filter_append, List.take_append_drop]⟩

/-! ### Judge claims -/

/-- C2: for every pair of synthesis inputs and every event, the Judge's
safety and performance scores are each at most 1.0, and `winner` is
`"Tie"` exactly when `|safety_score - performance_score| < 0.05`;
otherwise the lab with the strictly higher score is the winner. -/
theorem C2_judge_winner_rule (s p : Json) (ev : EventData) :
    (judge s p ev).safety_lab_score ≤ 1 ∧
    (judge s p ev).performance_lab_score ≤ 1 ∧
    ((judge s p ev).winner = "Tie" ↔
      |(judge s p ev).safety_lab_score - (judge s p ev).performance_lab_score|
        < 0.05) ∧
    (¬ |(judge s p ev).safety_lab_score - (judge s p ev).performance_lab_score|
        < 0.05 →
      (judge s p ev).winner =
        if (judge s p ev).safety_lab_score > (judge s p ev).performance_lab_score
        then "SafetyLab" else "PerformanceLab") := by
  unfold judge defaultJudgment
  cases h1 : ev.severity.getD "medium" == "high" <;>
    cases h2 : ev.severity.getD "medium" == "medium" <;>
      simp only [h1, h2, if_true, if_false, Bool.false_eq_true] <;>
        with_unfolding_all decide

/-- C8: for every event whose severity resolves to `"high"` and any two
synthesis inputs, the Judge's safety score is exactly
`0.28+0.23+0.12+0.13+0.08 = 0.84` and its performance score exactly
`0.22+0.15+0.18+0.14+0.08 = 0.77`, so the winner is `"SafetyLab"` and the
score gap is at least 0.05. -/
theorem C8_high_severity_scores (s p : Json) (ev : EventData)
    (h : ev.severity.getD "medium" = "high") :
    (judge s p ev).safety_lab_score = 0.28 + 0.23 + 0.12 + 0.13 + 0.08 ∧
    (judge s p ev).performance_lab_score = 0.22 + 0.15 + 0.18 + 0.14 + 0.08 ∧
    (judge s p ev).safety_lab_score = 0.84 ∧
    (judge s p ev).performance_lab_score = 0.77 ∧
    (judge s p ev).winner = "SafetyLab" ∧
    0.05 ≤ (judge s p ev).safety_lab_score -
      (judge s p ev).performance_lab_score := by
  unfold judge defaultJudgment
  rw [h]
  dsimp only
  with_unfolding_all decide

/-- C10: the Judge's entire decision is determined by the event's severity
and type alone; in particular any two pairs of synthesis inputs judged
against the same event yield identical decisions. -/
theorem C10_judge_event_only (s1 p1 s2 p2 : Json) (ev ev' : EventData)
    (hsev : ev.severity = ev'.severity)
    (htyp : ev.event_type = ev'.event_type) :
    judge s1 p1 ev = judge s2 p2 ev' := by
  unfold judge defaultJudgment
  rw [hsev, htyp]

/-! ### Retriever claim -/

/-- C3: for every genome and research plan the Retriever returns at most
10 papers; every returned paper's year lies in the genome's inclusive year
window; each carries `relevance_score` equal to the genome's venue weight
for its venue (0.5 when the venue is absent); the list is non-increasing
in `relevance_score`; and equal-score papers keep their original catalog
order (the sort is stable). -/
theorem C3_retrieve_spec (gen : LLMGen) (lab : String) (g : Genome)
    (plan : Plan) :
    (retrieve gen lab g plan).1.length ≤ 10 ∧
    (∀ sp ∈ (retrieve gen lab g plan).1,
      g.retrieval_preferences.year_window.1 ≤ sp.paper.year ∧
      sp.paper.year ≤ g.retrieval_preferences.year_window.2) ∧
    (∀ sp ∈ (retrieve gen lab g plan).1,
      sp.relevance_score =
        (g.retrieval_preferences.venue_weights.lookup sp.paper.venue).getD
          (1/2)) ∧
    ((retrieve gen lab g plan).1.Sorted
      (fun a b => b.relevance_score ≤ a.relevance_score)) ∧
    (∀ q : ℚ, ((retrieve gen lab g plan).1.filter
        (fun sp => decide (sp.relevance_score = q))) <+:
      ((retrieveScored lab g).filter
        (fun sp => decide (sp.relevance_score = q)))) := by
  have hre : (retrieve gen lab g plan).1 =
      (sortDescBy (fun sp => sp.relevance_score) (retrieveScored lab g)).take
        10 := rfl
  have hsub : (retrieve gen lab g plan).1 ⊆ retrieveScored lab g := by
    rw [hre]
    intro sp hsp
    exact (sortDescBy_perm (fun sp => sp.relevance_score)
      (retrieveScored lab g)).subset (List.take_subset _ _ hsp)
  refine ⟨?_, ?_, ?_, ?_, ?_⟩
  · rw [hre]
    exact List.length_take_le _ _
  · intro sp hsp
    obtain ⟨p, hpf, rfl⟩ := List.mem_map.1 (hsub hsp)
    exact of_decide_eq_true (List.mem_filter.1 hpf).2
  · intro sp hsp
    obtain ⟨p, _, rfl⟩ := List.mem_map.1 (hsub hsp)
    rfl
  · rw [hre]
    exact List.Pairwise.sublist (List.take_sublist _ _)
      (sortDescBy_sorted (fun sp : ScoredPaper => sp.relevance_score)
        (retrieveScored lab g))
  · intro q
    rw [hre]
    have h := filter_take_isPrefix (fun sp => decide (sp.relevance_score = q))
      10 (sortDescBy (fun sp => sp.relevance_score) (retrieveScored lab g))
    rwa [filter_sortDescBy] at h

theorem C3_retrieve_spec_witness :
    (gC3.retrieval_preferences.year_window.1 ≤ spC3.paper.year ∧
      spC3.paper.year ≤ gC3.retrieval_preferences.year_window.2) ∧
    spC3.relevance_score =
      (gC3.retrieval_preferences.venue_weights.lookup spC3.paper.venue).getD
        (1/2) :=
  ⟨(C3_retrieve_spec genOkW "SafetyLab" gC3 plEmpty).2.1 spC3
      (by with_unfolding_all exact List.Mem.head _),
   (C3_retrieve_spec genOkW "SafetyLab" gC3 plEmpty).2.2.1 spC3
      (by with_unfolding_all exact List.Mem.head _)⟩

theorem C2_judge_winner_rule_witness :
    ¬ |(judge .null .null evHighW).safety_lab_score -
        (judge .null .null evHighW).performance_lab_score| < 0.05 ∧
    (judge .null .null evHighW).winner =
      (if (judge .null .null evHighW).safety_lab_score >
          (judge .null .null evHighW).performance_lab_score
       then "SafetyLab" else "PerformanceLab") :=
  ⟨by with_unfolding_all decide,
   (C2_judge_winner_rule .null .null evHighW).2.2.2 (by with_unfolding_all decide)⟩

theorem C8_high_severity_scores_witness :
    (judge .null .null evHighW).winner = "SafetyLab" :=
  (C8_high_severity_scores .null .null evHighW rfl).2.2.2.2.1

theorem C10_judge_event_only_witness :
    judge (.str "synthesis A") .null evHighW =
      judge .null (.str "synthesis B") evHighW2 :=
  C10_judge_event_only (.str "synthesis A") .null .null (.str "synthesis B")
    evHighW evHighW2 rfl rfl

/-! ### Version-bump claim -/

/-- C4: bumping `"v0.1"` yields `"v0.2"`; an absent current version yields
`"v0.1"`; a malformed current version such as `"garbage"` yields `"v0.2"`;
and in general a parseable current version `v<x>` yields `v<y>` with
`y = x + 0.1` rounded to one decimal (`fmt1` rounds and formats to one
decimal exactly as the `round(…, 1)` / f-string pair does). -/
theorem C4_version_bump (gd : Genome) (lab cd : String) :
    (createNewGenomeVersion gd lab (some "v0.1") cd).1 = "v0.2" ∧
    (createNewGenomeVersion gd lab none cd).1 = "v0.1" ∧
    (createNewGenomeVersion gd lab (some "garbage") cd).1 = "v0.2" ∧
    (∀ s x, parseFloat? (stripV s) = some x →
      (createNewGenomeVersion gd lab (some s) cd).1 =
        "v" ++ fmt1 (x + 0.1)) := by
  refine ⟨by with_unfolding_all rfl, rfl, by with_unfolding_all rfl, ?_⟩
  intro s x h
  unfold createNewGenomeVersion
  dsimp only
  rw [h]

theorem C4_version_bump_witness :
    parseFloat? (stripV "v1.5") = some (1.5 : ℚ) ∧
    (createNewGenomeVersion gC3 "SafetyLab" (some "v1.5") "tuned").1 =
      "v" ++ fmt1 ((1.5 : ℚ) + 0.1) :=
  ⟨by with_unfolding_all decide,
   (C4_version_bump gC3 "SafetyLab" "tuned").2.2.2 "v1.5" 1.5
     (by with_unfolding_all decide)⟩

/-! ### Critic overall-score claim -/

theorem mapM_scores_ok (sv : List (String × Json))
    (weights : List (String × ℚ)) (σ : String → ℚ) :
    ∀ dims : List String, (∀ d ∈ dims, sv.lookup d = some (.num (σ d))) →
    (dims.mapM (fun dim => do
        let s ← jNum? ((sv.lookup dim).getD (.num 0.5))
        pure (s * ((weights.lookup dim).getD 1))) :
      Except String (List ℚ)) =
      .ok (dims.map (fun dim => σ dim * ((weights.lookup dim).getD 1)))
  | [], _ => rfl
  | d :: dims, h => by
    have hd := h d (List.mem_cons_self d dims)
    have ih := mapM_scores_ok sv weights σ dims
      (fun x hx => h x (List.mem_cons_of_mem d hx))
    simp only [List.mapM_cons, hd, Option.getD_some]
    rw [ih]
    rfl

/-- C1 (amended): when the critique supplies a numeric score for each
declared dimension, the stored `overall_score` equals the weighted mean
`Σ score[d]·weight[d] / Σ weight[d]` over the declared dimensions (absent
weights defaulting to 1.0) whenever the weight sum is positive, and is
exactly 0.5 whenever the weight sum is zero *or negative* — the code
guards on `weight_sum > 0`, not on `weight_sum ≠ 0`. -/
theorem C1_overall_score_weighted_mean (kv sv : List (String × Json))
    (dims : List String) (weights : List (String × ℚ)) (σ : String → ℚ)
    (hs : kv.lookup "scores" = some (.obj sv))
    (hσ : ∀ d ∈ dims, sv.lookup d = some (.num (σ d))) :
    critiquePaperCore (.obj kv) dims weights =
      .ok (setKey kv "overall_score" (.num
        (if 0 < (dims.map (fun d => (weights.lookup d).getD 1)).sum then
          (dims.map (fun d => σ d * ((weights.lookup d).getD 1))).sum /
            (dims.map (fun d => (weights.lookup d).getD 1)).sum
        else 0.5))) := by
  unfold critiquePaperCore
  dsimp only
  rw [hs]
  dsimp only [Option.getD_some]
  rw [mapM_scores_ok sv weights σ dims hσ]
  rfl

/-- C1 counterexample: with declared dimension `"a"`, explicit weight `-1`
and supplied score `0.9`, the code stores `overall_score = 0.5` although
the weight sum is `-1` (nonzero) and the claimed weighted mean is `0.9`. -/
theorem C1_counterexample :
    critiquePaperCore (.obj [("scores", .obj [("a", .num 0.9)])]) ["a"]
        [("a", -1)] =
      .ok [("scores", .obj [("a", .num 0.9)]), ("overall_score", .num 0.5)] ∧
    ((["a"] : List String).map
        (fun d => (([("a", (-1 : ℚ))].lookup d).getD 1))).sum = -1 ∧
    ((["a"] : List String).map (fun d =>
        (0.9 : ℚ) * (([("a", (-1 : ℚ))].lookup d).getD 1))).sum /
      ((["a"] : List String).map
        (fun d => (([("a", (-1 : ℚ))].lookup d).getD 1))).sum = 0.9 ∧
    (0.5 : ℚ) ≠ 0.9 :=
  ⟨by with_unfolding_all rfl, by with_unfolding_all decide,
   by with_unfolding_all decide, by with_unfolding_all decide⟩

theorem C1_overall_score_weighted_mean_witness :
    critiquePaperCore (.obj [("scores", .obj [("robustness", .num 0.8)])])
        ["robustness"] [("robustness", 0.5)] =
      .ok (setKey [("scores", .obj [("robustness", .num 0.8)])]
        "overall_score" (.num
          (if 0 < ((["robustness"] : List String).map
              (fun d => (([("robustness", (0.5 : ℚ))].lookup d).getD 1))).sum
          then ((["robustness"] : List String).map (fun d =>
              (fun _ => (0.8 : ℚ)) d *
                (([("robustness", (0.5 : ℚ))].lookup d).getD 1))).sum /
            ((["robustness"] : List String).map
              (fun d => (([("robustness", (0.5 : ℚ))].lookup d).getD 1))).sum
          else 0.5))) :=
  C1_overall_score_weighted_mean _ _ _ _ (fun _ => (0.8 : ℚ)) rfl
    (by
      intro d hd
      rw [List.mem_singleton] at hd
      subst hd
      rfl)

/-! ### Meta-learner claims -/

theorem adoptKeywords_keywords (g w : Genome) :
    (adoptKeywords g w).1.retrieval_preferences.keywords =
      g.retrieval_preferences.keywords ++
        ((w.retrieval_preferences.keywords.filter
          (fun kw => !g.retrieval_preferences.keywords.contains kw)).take 2) := by
  unfold adoptKeywords
  dsimp only
  split
  · rfl
  · next hcond =>
    have h2 : ((w.retrieval_preferences.keywords.filter
        (fun kw => !g.retrieval_preferences.keywords.contains kw)).take
          2).isEmpty = true := by
      cases hh : ((w.retrieval_preferences.keywords.filter
          (fun kw => !g.retrieval_preferences.keywords.contains kw)).take
            2).isEmpty
      · exact absurd (by rw [hh]; rfl) hcond
      · rfl
    rw [List.isEmpty_iff.mp h2, List.append_nil]

theorem tightenYearWindow_frame (g : Genome) (recs ch : List String) :
    (tightenYearWindow g recs ch).1.retrieval_preferences.keywords =
      g.retrieval_preferences.keywords ∧
    (tightenYearWindow g recs ch).1.retrieval_preferences.venue_weights =
      g.retrieval_preferences.venue_weights ∧
    (tightenYearWindow g recs ch).1.critique_focus = g.critique_focus := by
  unfold tightenYearWindow
  dsimp only
  split
  · split <;> exact ⟨rfl, rfl, rfl⟩
  · exact ⟨rfl, rfl, rfl⟩

theorem updateLosingGenome_keywords (g w : Genome) (recs : List String) :
    (updateLosingGenome g w recs).1.retrieval_preferences.keywords =
      g.retrieval_preferences.keywords ++
        ((w.retrieval_preferences.keywords.filter
          (fun kw => !g.retrieval_preferences.keywords.contains kw)).take 2) := by
  unfold updateLosingGenome
  dsimp only
  rw [(tightenYearWindow_frame _ _ _).1]
  exact adoptKeywords_keywords g w

theorem minorAdjustments_spec (g : Genome) :
    ((minorAdjustments g).1.retrieval_preferences.keywords =
        g.retrieval_preferences.keywords ∧
      (minorAdjustments g).1.retrieval_preferences.year_window =
        g.retrieval_preferences.year_window ∧
      (minorAdjustments g).1.critique_focus = g.critique_focus ∧
      (minorAdjustments g).1.reading_template = g.reading_template ∧
      (minorAdjustments g).1.synthesis_style = g.synthesis_style) ∧
    (∀ k v, firstMaxKey g.retrieval_preferences.venue_weights = some (k, v) →
      (minorAdjustments g).1.retrieval_preferences.venue_weights =
        setVal g.retrieval_preferences.venue_weights k (pymin (v + 0.05) 1)) ∧
    (g.retrieval_preferences.venue_weights = [] →
      (minorAdjustments g).1 = g ∧
      (minorAdjustments g).2 = ["No significant changes"]) := by
  refine ⟨?_, ?_, ?_⟩
  · unfold minorAdjustments
    dsimp only
    split <;> exact ⟨rfl, rfl, rfl, rfl, rfl⟩
  · intro k v hkv
    unfold minorAdjustments
    dsimp only
    rw [hkv]
  · intro hnil
    unfold minorAdjustments
    dsimp only
    rw [hnil]
    exact ⟨rfl, rfl⟩

/-- C7: whenever the losing condition applies to a lab (the other lab won,
or the lab's score is below 0.7), the MetaLearner appends to that lab's
keyword list exactly the first at most 2 keywords occurring in the winning
lab's list but not in the loser's, preserving the winner's order; in
particular for winner keywords `["a","b","c"]` against loser keywords
`["a"]` the adopted keywords are exactly `["b","c"]`. -/
theorem C7_keyword_adoption (d : Judgment) (sg pg : Genome) (ev : EventData)
    (h : d.winner = "PerformanceLab" ∨ d.safety_lab_score < 0.7) :
    (learn d sg pg ev).1.retrieval_preferences.keywords =
      sg.retrieval_preferences.keywords ++
        ((pg.retrieval_preferences.keywords.filter
          (fun kw => !sg.retrieval_preferences.keywords.contains kw)).take
            2) ∧
    ((["a", "b", "c"] : List String).filter
      (fun kw => !(["a"] : List String).contains kw)).take 2 = ["b", "c"] := by
  constructor
  · have hcond : (d.winner == "PerformanceLab" ||
        decide (d.safety_lab_score < 0.7)) = true := by
      rcases h with h | h
      · rw [h]
        rfl
      · simp [h]
    unfold learn
    dsimp only
    rw [hcond, if_pos rfl]
    by_cases ht : (d.winner == "Tie") = true
    · rw [ht, if_pos rfl]
      dsimp only
      rw [(minorAdjustments_spec _).1.1]
      exact updateLosingGenome_keywords sg pg _
    · rw [if_neg ht]
      exact updateLosingGenome_keywords sg pg _
  · with_unfolding_all decide

theorem C7_keyword_adoption_witness :
    (learn (sampleJudgment "PerformanceLab" 0.8 0.8) sgC7 pgC7
        evHighW).1.retrieval_preferences.keywords =
      sgC7.retrieval_preferences.keywords ++
        ((pgC7.retrieval_preferences.keywords.filter
          (fun kw =>
            !sgC7.retrieval_preferences.keywords.contains kw)).take 2) :=
  (C7_keyword_adoption (sampleJudgment "PerformanceLab" 0.8 0.8) sgC7 pgC7
    evHighW (Or.inl rfl)).1

/-- C6 counterexample: a Tie decision whose safety score is 0.5 (< 0.7)
also triggers the losing-lab update, so the SafetyLab genome changes in
its keyword list, not only in a venue weight. -/
theorem C6_counterexample :
    (sampleJudgment "Tie" 0.5 0.8).winner = "Tie" ∧
    (learn (sampleJudgment "Tie" 0.5 0.8) sgC7 pgC7
        evHighW).1.retrieval_preferences.keywords ≠
      sgC7.retrieval_preferences.keywords :=
  ⟨rfl, by with_unfolding_all decide⟩

/-- C6 (amended): for every Tie decision whose two lab scores are both at
least 0.7, each lab's new genome differs from its current genome only in
the weight of the first venue attaining the maximum venue-weight, which is
increased by 0.05 capped at 1.0; a lab genome with no venue weights is
returned unchanged with recorded change `"No significant changes"`.  (When
a Tie decision carries a lab score below 0.7 the losing-lab update is also
applied to that lab first — see the counterexample.) -/
theorem C6_tie_minor_adjustments (d : Judgment) (sg pg : Genome)
    (ev : EventData) (hw : d.winner = "Tie")
    (hs : (0.7 : ℚ) ≤ d.safety_lab_score)
    (hp : (0.7 : ℚ) ≤ d.performance_lab_score) :
    ((learn d sg pg ev).1.retrieval_preferences.keywords =
        sg.retrieval_preferences.keywords ∧
      (learn d sg pg ev).1.retrieval_preferences.year_window =
        sg.retrieval_preferences.year_window ∧
      (learn d sg pg ev).1.critique_focus = sg.critique_focus ∧
      (learn d sg pg ev).1.reading_template = sg.reading_template ∧
      (learn d sg pg ev).1.synthesis_style = sg.synthesis_style) ∧
    (∀ k v, firstMaxKey sg.retrieval_preferences.venue_weights = some (k, v) →
      (learn d sg pg ev).1.retrieval_preferences.venue_weights =
        setVal sg.retrieval_preferences.venue_weights k (pymin (v + 0.05) 1)) ∧
    (sg.retrieval_preferences.venue_weights = [] →
      (learn d sg pg ev).1 = sg ∧
      (learn d sg pg ev).2.2.1 = "No significant changes") ∧
    ((learn d sg pg ev).2.1.retrieval_preferences.keywords =
        pg.retrieval_preferences.keywords ∧
      (learn d sg pg ev).2.1.retrieval_preferences.year_window =
        pg.retrieval_preferences.year_window ∧
      (learn d sg pg ev).2.1.critique_focus = pg.critique_focus ∧
      (learn d sg pg ev).2.1.reading_template = pg.reading_template ∧
      (learn d sg pg ev).2.1.synthesis_style = pg.synthesis_style) ∧
    (∀ k v, firstMaxKey pg.retrieval_preferences.venue_weights = some (k, v) →
      (learn d sg pg ev).2.1.retrieval_preferences.venue_weights =
        setVal pg.retrieval_preferences.venue_weights k (pymin (v + 0.05) 1)) ∧
    (pg.retrieval_preferences.venue_weights = [] →
      (learn d sg pg ev).2.1 = pg ∧
      (learn d sg pg ev).2.2.2 = "No significant changes") := by
  have h1 : (d.winner == "PerformanceLab" ||
      decide (d.safety_lab_score < 0.7)) = false := by
    rw [hw]
    simp [not_lt.2 hs]
  have h2 : (d.winner == "SafetyLab" ||
      decide (d.performance_lab_score < 0.7)) = false := by
    rw [hw]
    simp [not_lt.2 hp]
  have h3 : (d.winner == "Tie") = true := by
    rw [hw]
    rfl
  have h4 : (d.winner == "SafetyLab") = false := by
    rw [hw]
    rfl
  have h5 : (d.winner == "PerformanceLab") = false := by
    rw [hw]
    rfl
  have hlearn : learn d sg pg ev =
      ((minorAdjustments sg).1, (minorAdjustments pg).1,
       (if (minorAdjustments sg).2.isEmpty then "No changes"
        else String.intercalate "; " (minorAdjustments sg).2),
       (if (minorAdjustments pg).2.isEmpty then "No changes"
        else String.intercalate "; " (minorAdjustments pg).2)) := by
    unfold learn
    dsimp only
    rw [h1, h2, h3, h4, h5, if_neg Bool.false_ne_true,
      if_neg Bool.false_ne_true, if_neg Bool.false_ne_true,
      if_neg Bool.false_ne_true, if_pos rfl]
  rw [hlearn]
  have hms := minorAdjustments_spec sg
  have hmp := minorAdjustments_spec pg
  refine ⟨hms.1, hms.2.1, ?_, hmp.1, hmp.2.1, ?_⟩
  · intro hnil
    refine ⟨(hms.2.2 hnil).1, ?_⟩
    rw [(hms.2.2 hnil).2]
    with_unfolding_all rfl
  · intro hnil
    refine ⟨(hmp.2.2 hnil).1, ?_⟩
    rw [(hmp.2.2 hnil).2]
    with_unfolding_all rfl

theorem C6_tie_minor_adjustments_witness :
    (learn (sampleJudgment "Tie" 0.75 0.75) sgC7 pgC7
        evHighW).1.retrieval_preferences.venue_weights =
      setVal sgC7.retrieval_preferences.venue_weights "ICRA"
        (pymin ((0.9 : ℚ) + 0.05) 1) ∧
    (learn (sampleJudgment "Tie" 0.75 0.75) sgC7 pgC7 evHighW).2.1 = pgC7 ∧
    (learn (sampleJudgment "Tie" 0.75 0.75) sgC7 pgC7 evHighW).2.2.2 =
      "No significant changes" :=
  ⟨(C6_tie_minor_adjustments (sampleJudgment "Tie" 0.75 0.75) sgC7 pgC7
      evHighW rfl (by with_unfolding_all decide)
      (by with_unfolding_all decide)).2.1 "ICRA" 0.9
      (by with_unfolding_all rfl),
   ((C6_tie_minor_adjustments (sampleJudgment "Tie" 0.75 0.75) sgC7 pgC7
      evHighW rfl (by with_unfolding_all decide)
      (by with_unfolding_all decide)).2.2.2.2.2 rfl).1,
   ((C6_tie_minor_adjustments (sampleJudgment "Tie" 0.75 0.75) sgC7 pgC7
      evHighW rfl (by with_unfolding_all decide)
      (by with_unfolding_all decide)).2.2.2.2.2 rfl).2⟩

/-! ### Stage error-handling and collaborator-call-count claims -/

/-- C5 counterexample: an exception raised by the collaborator call
propagates out of the Planner stage uncaught, and collaborator output
that decodes to a JSON array (valid JSON of the wrong shape) raises an
uncaught `AttributeError` instead of producing the fallback. -/
theorem C5_counterexample :
    (plannerPlan (fun _ => .error "NotImplementedError") (fun _ => none)
        "SafetyLab" gC3 evHighW).1 = .error "NotImplementedError" ∧
    (plannerPlan (fun _ => .ok "[]") (fun _ => some (.arr []))
        "SafetyLab" gC3 evHighW).1 = .error "AttributeError" :=
  ⟨rfl, rfl⟩

/-- C5 (amended): in the Planner, Critic (per paper) and Synthesizer
stages only a JSON-decode failure of the collaborator's output is caught;
the stage then proceeds deterministically with its fallback (default plan
/ default critique / default synthesis).  An exception raised by the
collaborator call itself is not caught and propagates out of the stage
(the shipped mock collaborator never raises and always returns either
valid JSON objects or plainly non-JSON text). -/
theorem C5_stage_fallback (gen : LLMGen) (jloads : JLoads) (lab : String)
    (g : Genome) (ev : EventData) (paper : ReadPaper) (dims : List String)
    (weights : List (String × ℚ)) (plan : Plan)
    (papers : List CritiquedPaper) :
    (∀ r, gen (planningPrompt lab g ev) = .ok r → jloads r = none →
      (plannerPlan gen jloads lab g ev).1 =
        plannerAssemble lab g ev (defaultPlan lab ev)) ∧
    (∀ e, gen (planningPrompt lab g ev) = .error e →
      (plannerPlan gen jloads lab g ev).1 = .error e) ∧
    (∀ r, gen (critiquePrompt lab paper dims ev) = .ok r → jloads r = none →
      criticOnePaper gen jloads lab paper dims weights ev = do
        let c ← defaultCritique paper dims
        let kv ← critiquePaperCore c dims weights
        pure { paper := paper, critique := kv }) ∧
    (∀ e, gen (critiquePrompt lab paper dims ev) = .error e →
      criticOnePaper gen jloads lab paper dims weights ev = .error e) ∧
    (∀ pr r, synthesisPrompt lab g plan papers ev = .ok pr →
      gen pr = .ok r → jloads r = none →
      (synthesize gen jloads lab g plan papers ev).1 =
        synthAttachMeta lab papers ev (defaultSynthesis lab papers ev)) ∧
    (∀ pr e, synthesisPrompt lab g plan papers ev = .ok pr →
      gen pr = .error e →
      (synthesize gen jloads lab g plan papers ev).1 = .error e) := by
  refine ⟨?_, ?_, ?_, ?_, ?_, ?_⟩
  · intro r hgen hjl
    unfold plannerPlan
    dsimp only
    rw [hgen]
    dsimp only
    rw [hjl]
  · intro e hgen
    unfold plannerPlan
    dsimp only
    rw [hgen]
  · intro r hgen hjl
    unfold criticOnePaper
    rw [hgen]
    dsimp only
    rw [hjl]
  · intro e hgen
    unfold criticOnePaper
    rw [hgen]
  · intro pr r hpr hgen hjl
    unfold synthesize
    rw [hpr]
    dsimp only
    rw [hgen]
    dsimp only
    rw [hjl]
  · intro pr e hpr hgen
    unfold synthesize
    rw [hpr]
    dsimp only
    rw [hgen]

theorem C5_stage_fallback_witness :
    (plannerPlan genOkW jlFailW "SafetyLab" gC3 evHighW).1 =
      plannerAssemble "SafetyLab" gC3 evHighW
        (defaultPlan "SafetyLab" evHighW) :=
  (C5_stage_fallback genOkW jlFailW "SafetyLab" gC3 evHighW rpW [] []
    plEmpty []).1 "mock response" rfl rfl

theorem criticLoop_ok_trace (gen : LLMGen) (jloads : JLoads) (lab : String)
    (dims : List String) (weights : List (String × ℚ)) (ev : EventData) :
    ∀ (papers : List ReadPaper) (acc : List CritiquedPaper)
      (trace : List Prompt),
    isOkE (criticLoop gen jloads lab dims weights ev papers acc trace).1 =
        true →
    (criticLoop gen jloads lab dims weights ev papers acc trace).2.length =
      trace.length + papers.length
  | [], acc, trace, _ => by simp [criticLoop]
  | p :: rest, acc, trace, h => by
    unfold criticLoop at h ⊢
    dsimp only at h ⊢
    cases hcp : criticOnePaper gen jloads lab p dims weights ev with
    | error e =>
      rw [hcp] at h
      exact absurd h (Bool.false_ne_true)
    | ok cp =>
      rw [hcp] at h
      dsimp only at h ⊢
      have ih := criticLoop_ok_trace gen jloads lab dims weights ev rest
        (acc ++ [cp]) (trace ++ [critiquePrompt lab p dims ev]) h
      rw [ih, List.length_append]
      simp
      omega

/-- C9 counterexample: in one run, the Critic makes one collaborator call
per paper (two calls for two papers), while the Retriever and Reader make
none — not one call per stage. -/
theorem C9_counterexample :
    (criticCritique genOkW jlFailW "SafetyLab" gC3 [rpW, rpW2]
      evHighW).2.length = 2 ∧
    (retrieve genOkW "SafetyLab" gC3 plEmpty).2.length = 0 ∧
    (readerRead genOkW gC3 []).2.length = 0 ∧
    (2 : ℕ) ≠ 1 ∧ (0 : ℕ) ≠ 1 :=
  ⟨by with_unfolding_all rfl, rfl, rfl, by decide, by decide⟩

/-- C9 (amended): per lab run, the Planner and the Synthesizer each make
exactly one collaborator call (the Synthesizer provided its prompt builds
without error); the Critic makes exactly one call per paper whenever its
loop completes without an exception; the Retriever and the Reader make no
collaborator calls; no stage retries. -/
theorem C9_calls_per_stage (gen : LLMGen) (jloads : JLoads) (lab : String)
    (g : Genome) (ev : EventData) (plan : Plan)
    (spapers : List ScoredPaper) (rpapers : List ReadPaper)
    (cpapers : List CritiquedPaper) (pr : Prompt) :
    (plannerPlan gen jloads lab g ev).2.length = 1 ∧
    (retrieve gen lab g plan).2.length = 0 ∧
    (readerRead gen g spapers).2.length = 0 ∧
    (isOkE (criticCritique gen jloads lab g rpapers ev).1 = true →
      (criticCritique gen jloads lab g rpapers ev).2.length =
        rpapers.length) ∧
    (synthesisPrompt lab g plan cpapers ev = .ok pr →
      (synthesize gen jloads lab g plan cpapers ev).2.length = 1) := by
  refine ⟨?_, rfl, rfl, ?_, ?_⟩
  · unfold plannerPlan
    dsimp only
    cases gen (planningPrompt lab g ev) <;> rfl
  · unfold criticCritique
    dsimp only
    have h := criticLoop_ok_trace gen jloads lab g.critique_focus.dimensions
      g.critique_focus.weights ev rpapers [] []
    rcases hcl : criticLoop gen jloads lab g.critique_focus.dimensions
      g.critique_focus.weights ev rpapers [] [] with ⟨res, trace⟩
    rw [hcl] at h
    cases res with
    | ok cps =>
      intro _
      simpa using h rfl
    | error e =>
      intro hok
      exact absurd hok (Bool.false_ne_true)
  · intro hpr
    unfold synthesize
    rw [hpr]
    dsimp only
    cases gen pr <;> rfl

theorem C9_calls_per_stage_witness :
    (criticCritique genOkW jlFailW "SafetyLab" gC3 [rpW, rpW2]
        evHighW).2.length = ([rpW, rpW2] : List ReadPaper).length ∧
    (synthesize genOkW jlFailW "SafetyLab" gC3 plEmpty [] evHighW).2.length =
      1 :=
  ⟨(C9_calls_per_stage genOkW jlFailW "SafetyLab" gC3 evHighW plEmpty []
      [rpW, rpW2] [] (.synthesis "SafetyLab" (.arr []) [] "cut_in" "high"
        "engineers" "balanced")).2.2.2.1 (by with_unfolding_all rfl),
   (C9_calls_per_stage genOkW jlFailW "SafetyLab" gC3 evHighW plEmpty []
      [rpW, rpW2] [] (.synthesis "SafetyLab" (.arr []) [] "cut_in" "high"
        "engineers" "balanced")).2.2.2.2 rfl⟩

end Newton
